import Mathlib

/-!
# rocketmq-client-go, `internal/remote/tcp_conn.go`

A shallow embedding of the TCP connection wrapper of the remoting client:
the address normaliser `fixIPv6URL`, the connection establisher `initConn`,
and the closure tracker (`destroy`, `isClosed`) of `tcpConnWrapper`.

Conventions of the embedding.

* A Go `string` is a sequence of bytes, `List UInt8`.  String literals of the
  source are written `str "..."` (their UTF-8 bytes) and one-byte separators
  `chr ':'`.
* The Go standard library is not part of the repository.  `strings.Contains`,
  `strings.Split` and `strings.Join` are embedded after their documented
  behaviour; `Contains` and `Split` are specialised to a one-byte needle or
  separator, which is how the source calls them (`"["` and `":"`).
* An `error` interface value is `GoError`: the nil interface, a value of
  dynamic type `*net.OpError` (whose pointer may itself be nil), or any other
  non-nil value.
* A run-time panic (method call through a nil pointer or a nil interface) is
  an explicit outcome, `Except Panic _`.  The inner `Err` of a `net.OpError` is
  given by what its dynamic `Error()` call does: return a message, or panic.
* The network is a parameter (`Net`): the two dial functions, the clock and
  `Close` are functions of the platform, not of this file.
* Method receivers (`wrapper`) and the `config` pointer are taken to be
  non-nil.
-/

namespace Remote

/-! ## Strings -/

/-- A Go string: an immutable sequence of bytes. -/
abbrev GoString := List UInt8

/-- The bytes of a string literal (UTF-8, as the Go compiler stores it). -/
def str (s : String) : GoString := s.toUTF8.data.toList

/-- The byte of an ASCII character literal. -/
def chr (c : Char) : UInt8 := c.toNat.toUInt8

namespace strings

/-- Go `strings.Contains(s, substr)` for a one-byte `substr`: whether the byte
occurs anywhere in `s`. -/
def Contains (s : GoString) (b : UInt8) : Bool :=
  match s with
  | [] => false
  | c :: cs => if c = b then true else Contains cs b

/-- Go `strings.Split(s, sep)` for a one-byte `sep`: the substrings between the
separators, in order.  A string without the separator (the empty string
included) gives the one-element slice holding the string itself. -/
def Split (s : GoString) (sep : UInt8) : List GoString :=
  match s with
  | [] => [[]]
  | c :: cs =>
    if c = sep then [] :: Split cs sep
    else
      match Split cs sep with
      | [] => [[c]]
      | p :: ps => (c :: p) :: ps

/-- Go `strings.Join(elems, sep)`: the elements concatenated, with `sep`
between neighbours. -/
def Join (elems : List GoString) (sep : GoString) : GoString :=
  match elems with
  | [] => []
  | [e] => e
  | e :: e2 :: es => e ++ sep ++ Join (e2 :: es) sep

end strings

/-! ## `fixIPv6URL` -/

/-- Source `fixIPv6URL` (tcp_conn.go, lines 37-51).
`parts[:len(parts)-1]` is `parts.take (parts.length - 1)`; the index
`parts[len(parts)-1]` is in range because `len(parts) > 2` on that branch. -/
def fixIPv6URL (addr : GoString) : GoString :=
  if strings.Contains addr (chr '[') then addr
  else
    let parts := strings.Split addr (chr ':')
    if h : parts.length ≤ 2 then addr
    else
      str "[" ++ strings.Join (parts.take (parts.length - 1)) (str ":") ++ str "]:"
        ++ parts.get ⟨parts.length - 1, by omega⟩

/-! ## Errors and panics -/

/-- A Go run-time panic. -/
inductive Panic where
  /-- Invalid memory address or nil pointer dereference. -/
  | nilDereference
  /-- Any other panic, with its message. -/
  | raised (what : GoString)
  deriving DecidableEq

deriving instance DecidableEq for Except

/-- Go `net.OpError`, reduced to the field `isClosed` reads.  `Err` is an
`error` interface, given by what the dynamic call `Err.Error()` does: `none` is
the nil interface; `some (Except.ok m)` is a non-nil value whose `Error()`
returns `m`; `some (Except.error p)` is a non-nil value whose `Error()` panics
with `p`, as a nil `*os.SyscallError` stored in the interface does. -/
structure OpError where
  Err : Option (Except Panic GoString)
  deriving DecidableEq

/-- A value of the Go interface type `error`, by dynamic type. -/
inductive GoError where
  /-- The nil interface value. -/
  | nil
  /-- Dynamic type `*net.OpError`; the pointer is `none` when it is a nil
  pointer stored in a non-nil interface. -/
  | opError (ptr : Option OpError)
  /-- A non-nil value of any other dynamic type, with what `Error()` returns. -/
  | other (msg : GoString)
  deriving DecidableEq

/-! ## The platform -/

/-- Modelled from the spec: the type `RemotingClientConfig` is declared outside
this file; the spec gives it the fields connect timeout, keepalive period and
use-TLS, which are the three `initConn` reads (durations in nanoseconds). -/
structure RemotingClientConfig where
  KeepAliveDuration : Int
  ConnectionTimeout : Int
  UseTls : Bool
  deriving DecidableEq

/-- Go `net.Dialer`, reduced to the two fields `initConn` sets. -/
structure Dialer (Time : Type) where
  KeepAlive : Int
  Deadline : Time

/-- Go `tls.Config`, reduced to the field `initConn` sets. -/
structure TlsConfig where
  InsecureSkipVerify : Bool
  deriving DecidableEq

/-- The platform `initConn` and `destroy` call into: the clock, the two dial
functions and `Close` of `net.Conn`.  `σ` is the state of a connection, `Ctx`
a `context.Context`, `Time` a `time.Time`.  A dial returns the pair
`(net.Conn, error)`; a nil `net.Conn` is `none`. -/
structure Net (σ Ctx Time : Type) where
  /-- Go `time.Now()`. -/
  Now : Time
  /-- Go `Time.Add`. -/
  Add : Time → Int → Time
  /-- Go `tls.DialWithDialer(dialer, network, addr, config)`. -/
  TlsDialWithDialer : Dialer Time → GoString → GoString → TlsConfig → Option σ × GoError
  /-- Go `(*net.Dialer).DialContext(ctx, network, address)`. -/
  DialContext : Dialer Time → Ctx → GoString → GoString → Option σ × GoError
  /-- Go `net.Conn.Close()`: the connection afterwards and the error returned. -/
  Close : σ → σ × GoError

/-! ## The wrapper -/

/-- Source `tcpConnWrapper` (lines 31-35): the embedded `net.Conn` (an
interface, `none` when nil), the embedded `sync.Mutex` (`true` when held) and
the `atomic.Bool` flag `closed`. -/
structure tcpConnWrapper (σ : Type) where
  Conn : Option σ
  Mutex : Bool
  closed : Bool
  deriving DecidableEq

/-- Source `initConn` (lines 53-74).  The wrapper literal sets `Conn` only, so
`Mutex` and `closed` have their zero values. -/
def initConn {σ Ctx Time : Type} (net : Net σ Ctx Time) (ctx : Ctx) (addr : GoString)
    (config : RemotingClientConfig) : Option (tcpConnWrapper σ) × GoError :=
  let d : Dialer Time :=
    { KeepAlive := config.KeepAliveDuration
      Deadline := net.Add net.Now config.ConnectionTimeout }
  let r : Option σ × GoError :=
    if config.UseTls then
      net.TlsDialWithDialer d (str "tcp") (fixIPv6URL addr) { InsecureSkipVerify := true }
    else
      net.DialContext d ctx (str "tcp") (fixIPv6URL addr)
  if r.2 ≠ GoError.nil then (none, r.2)
  else (some { Conn := r.1, Mutex := false, closed := false }, GoError.nil)

/-- Source `destroy` (lines 76-79): `closed.Swap(true)`, then `Conn.Close()`.
Returns the wrapper afterwards and what the call returns; calling `Close`
through a nil `Conn` panics, after the flag is set. -/
def tcpConnWrapper.destroy {σ : Type} (Close : σ → σ × GoError) (wrapper : tcpConnWrapper σ) :
    tcpConnWrapper σ × Except Panic GoError :=
  let wrapper1 : tcpConnWrapper σ := { wrapper with closed := true }
  match wrapper1.Conn with
  | none => (wrapper1, Except.error Panic.nilDereference)
  | some c => ({ wrapper1 with Conn := some (Close c).1 }, Except.ok (Close c).2)

/-- Source `isClosed` (lines 81-92).  It only loads the flag, so there is no
wrapper to return.  `opErr.Err` through a nil `*net.OpError` and `.Error()` on
a nil `Err` panic, and a panic inside the `Error()` of a non-nil `Err` is the
panic of the call. -/
def tcpConnWrapper.isClosed {σ : Type} (wrapper : tcpConnWrapper σ) (err : GoError) :
    Except Panic Bool :=
  if !wrapper.closed then Except.ok false
  else
    match err with
    | GoError.opError ptr =>
      match ptr with
      | none => Except.error Panic.nilDereference
      | some opErr =>
        match opErr.Err with
        | none => Except.error Panic.nilDereference
        | some (Except.error p) => Except.error p
        | some (Except.ok msg) =>
          Except.ok (decide (msg = str "use of closed network connection"))
    | _ => Except.ok false

/-! ## Sequences of calls on one wrapper -/

/-- One call on a wrapper: `destroy()` or `isClosed(err)`. -/
inductive Call where
  | destroy
  | isClosed (err : GoError)
  deriving DecidableEq

/-- The wrapper after one call.  `isClosed` writes nothing. -/
def step {σ : Type} (Close : σ → σ × GoError) (wrapper : tcpConnWrapper σ) :
    Call → tcpConnWrapper σ
  | Call.destroy => (wrapper.destroy Close).1
  | Call.isClosed _ => wrapper

/-- The wrapper after a finite sequence of calls, first call first. -/
def run {σ : Type} (Close : σ → σ × GoError) (wrapper : tcpConnWrapper σ)
    (calls : List Call) : tcpConnWrapper σ :=
  calls.foldl (step Close) wrapper

/-! ## Vocabulary of the specification -/

/-- The error is a `*net.OpError` whose inner `Err` has exactly the message
`use of closed network connection`. -/
def IsClosedConnError (err : GoError) : Prop :=
  ∃ opErr : OpError, err = GoError.opError (some opErr) ∧
    opErr.Err = some (Except.ok (str "use of closed network connection"))

/-- The error is a `*net.OpError` with nothing to read the message from: a nil
pointer, a nil inner `Err`, or an inner `Err` whose `Error()` panics. -/
def IsHollowOpError (err : GoError) : Prop :=
  err = GoError.opError none ∨ err = GoError.opError (some { Err := none }) ∨
    ∃ p : Panic, err = GoError.opError (some { Err := some (Except.error p) })

/-- The string has the bracketed form `"[" + H + "]:" + P`. -/
def IsBracketed (r : GoString) : Prop :=
  ∃ H P : GoString, r = str "[" ++ H ++ str "]:" ++ P

/-! ## A platform to evaluate on -/

/-- A platform whose dials always succeed with a connection of state `0` and
whose `Close` succeeds on an open connection (state `0`, which becomes `1`) and
fails with `use of closed network connection` on a closed one. -/
def loopback : Net Nat Unit Int where
  Now := 0
  Add := fun t d => t + d
  TlsDialWithDialer := fun _ _ _ _ => (some 0, GoError.nil)
  DialContext := fun _ _ _ _ => (some 0, GoError.nil)
  Close := fun c =>
    if c = 0 then (1, GoError.nil)
    else (c, GoError.opError (some { Err := some (Except.ok (str "use of closed network connection")) }))

/-- The error a read or write on a closed socket gives: a `*net.OpError` whose
`Err` says `use of closed network connection`. -/
def errClosedConn : GoError :=
  GoError.opError (some { Err := some (Except.ok (str "use of closed network connection")) })

/-- A platform with a name service and cancellation.  A `context.Context` is
reduced to whether it is already cancelled.  A dial succeeds (connection of
state `0`) when the network is `tcp` and `resolves` accepts the address, and
fails with `no such host` otherwise; `DialContext` first fails with
`operation was canceled` under a cancelled context, which the TLS dial never
sees.  `Close` is the one of `loopback`. -/
def picky (resolves : GoString → Bool) : Net Nat Bool Int where
  Now := 0
  Add := fun t d => t + d
  TlsDialWithDialer := fun _ network address _ =>
    if network = str "tcp" ∧ resolves address = true then (some 0, GoError.nil)
    else (none, GoError.other (str "no such host"))
  DialContext := fun _ cancelled network address =>
    if cancelled = true then (none, GoError.other (str "operation was canceled"))
    else if network = str "tcp" ∧ resolves address = true then (some 0, GoError.nil)
    else (none, GoError.other (str "no such host"))
  Close := loopback.Close

/-- What a dial was called with: through `tls.DialWithDialer` or not, the
network, and the address. -/
structure DialRecord where
  viaTls : Bool
  network : GoString
  address : GoString
  deriving DecidableEq

/-- A platform whose connections are the record of the dial that made them, so
that what `initConn` passes to the dial can be read off the wrapper. -/
def recorder : Net DialRecord Unit Int where
  Now := 0
  Add := fun t d => t + d
  TlsDialWithDialer := fun _ network address _ =>
    (some { viaTls := true, network := network, address := address }, GoError.nil)
  DialContext := fun _ _ network address =>
    (some { viaTls := false, network := network, address := address }, GoError.nil)
  Close := fun c => (c, GoError.nil)

/-- The underlying dial of `initConn` (lines 54-66): `tls.DialWithDialer` when
`config.UseTls`, `DialContext` otherwise, with the dialer `initConn` prepares,
and what it returns. -/
def dialed {σ Ctx Time : Type} (net : Net σ Ctx Time) (ctx : Ctx) (addr : GoString)
    (config : RemotingClientConfig) : Option σ × GoError :=
  if config.UseTls then
    net.TlsDialWithDialer
      { KeepAlive := config.KeepAliveDuration
        Deadline := net.Add net.Now config.ConnectionTimeout }
      (str "tcp") (fixIPv6URL addr) { InsecureSkipVerify := true }
  else
    net.DialContext
      { KeepAlive := config.KeepAliveDuration
        Deadline := net.Add net.Now config.ConnectionTimeout }
      ctx (str "tcp") (fixIPv6URL addr)

/-! ## Lemmas on the string functions -/

theorem str_lbracket : str "[" = [chr '['] := by decide

theorem str_colon : str ":" = [chr ':'] := by decide

theorem str_rbracket_colon : str "]:" = [chr ']', chr ':'] := by decide

theorem lbracket_ne_colon : chr '[' ≠ chr ':' := by decide

namespace strings

theorem Contains_iff_mem (s : GoString) (b : UInt8) : Contains s b = true ↔ b ∈ s := by
  induction s with
  | nil => simp [Contains]
  | cons c cs ih =>
    unfold Contains
    by_cases hc : c = b
    · simp [hc]
    · have hb : ¬ b = c := fun h => hc h.symm
      simp [hc, hb, ih]

theorem Contains_eq_false_iff (s : GoString) (b : UInt8) : Contains s b = false ↔ b ∉ s := by
  rw [← Contains_iff_mem]; simp

theorem Split_ne_nil (s : GoString) (b : UInt8) : Split s b ≠ [] := by
  cases s with
  | nil => simp [Split]
  | cons c cs =>
    unfold Split
    by_cases hc : c = b
    · simp [hc]
    · simp only [hc, if_false]
      cases Split cs b <;> simp

theorem Split_cons_ne (c : UInt8) (cs : GoString) (b : UInt8) (hc : c ≠ b) :
    ∃ p ps, Split cs b = p :: ps ∧ Split (c :: cs) b = (c :: p) :: ps := by
  cases hs : Split cs b with
  | nil => exact absurd hs (Split_ne_nil cs b)
  | cons p ps =>
    refine ⟨p, ps, rfl, ?_⟩
    rw [Split]
    simp [hc, hs]

theorem length_Split (s : GoString) (b : UInt8) : (Split s b).length = s.count b + 1 := by
  induction s with
  | nil => simp [Split]
  | cons c cs ih =>
    by_cases hc : c = b
    · subst hc
      rw [Split]
      simp [ih]
    · obtain ⟨p, ps, h1, h2⟩ := Split_cons_ne c cs b hc
      rw [h2, List.count_cons_of_ne (fun h => hc h.symm), ← ih, h1]
      simp

theorem Split_of_not_mem (s : GoString) (b : UInt8) (h : b ∉ s) : Split s b = [s] := by
  induction s with
  | nil => simp [Split]
  | cons c cs ih =>
    have hc : c ≠ b := fun e => h (by simp [e])
    have hcs : b ∉ cs := fun e => h (List.mem_cons_of_mem _ e)
    obtain ⟨p, ps, h1, h2⟩ := Split_cons_ne c cs b hc
    rw [ih hcs] at h1
    simp only [List.cons.injEq] at h1
    rw [h2, ← h1.1, ← h1.2]

theorem Split_append_cons (A B : GoString) (b : UInt8) :
    Split (A ++ b :: B) b = Split A b ++ Split B b := by
  induction A with
  | nil => simp [Split]
  | cons a A ih =>
    by_cases ha : a = b
    · subst ha
      rw [List.cons_append, Split, Split]
      simp [ih]
    · obtain ⟨p, ps, h1, h2⟩ := Split_cons_ne a A b ha
      obtain ⟨q, qs, h3, h4⟩ := Split_cons_ne a (A ++ b :: B) b ha
      rw [List.cons_append, h4, h2]
      rw [ih, h1] at h3
      simp only [List.cons_append, List.cons.injEq] at h3
      simp [h3.1, h3.2]

theorem Join_cons_cons (e e2 : GoString) (es : List GoString) (sep : GoString) :
    Join (e :: e2 :: es) sep = e ++ sep ++ Join (e2 :: es) sep := by
  rw [Join]

theorem Join_Split (s : GoString) (b : UInt8) : Join (Split s b) [b] = s := by
  induction s with
  | nil => simp [Split, Join]
  | cons c cs ih =>
    by_cases hc : c = b
    · subst hc
      rw [Split]
      simp only [if_true]
      cases hs : Split cs c with
      | nil => exact absurd hs (Split_ne_nil cs c)
      | cons p ps =>
        rw [Join_cons_cons, ← hs, ih]
        simp
    · obtain ⟨p, ps, h1, h2⟩ := Split_cons_ne c cs b hc
      rw [h2]
      rw [h1] at ih
      cases ps with
      | nil =>
        simp only [Join] at ih ⊢
        rw [ih]
      | cons q qs =>
        rw [Join_cons_cons] at ih ⊢
        rw [← ih]
        simp

end strings

/-! ## Lemmas on `fixIPv6URL` -/

theorem fixIPv6URL_of_mem (addr : GoString) (h : chr '[' ∈ addr) : fixIPv6URL addr = addr := by
  unfold fixIPv6URL
  rw [if_pos ((strings.Contains_iff_mem addr _).2 h)]

theorem fixIPv6URL_of_count_le (addr : GoString) (h : addr.count (chr ':') ≤ 1) :
    fixIPv6URL addr = addr := by
  unfold fixIPv6URL
  split
  · rfl
  · have hlen : (strings.Split addr (chr ':')).length ≤ 2 := by
      rw [strings.length_Split]; omega
    simp only [dif_pos hlen]

theorem exists_last_sep (s : GoString) (b : UInt8) (h : b ∈ s) :
    ∃ A B : GoString, s = A ++ b :: B ∧ b ∉ B := by
  induction s with
  | nil => simp at h
  | cons c cs ih =>
    by_cases hcs : b ∈ cs
    · obtain ⟨A, B, hA, hB⟩ := ih hcs
      exact ⟨c :: A, B, by rw [hA]; rfl, hB⟩
    · have hc : b = c := by
        rcases List.mem_cons.1 h with e | e
        · exact e
        · exact absurd e hcs
      exact ⟨[], cs, by rw [hc]; rfl, hcs⟩

theorem fixIPv6URL_append (A B : GoString) (hA : chr '[' ∉ A) (hB : chr '[' ∉ B)
    (hcA : chr ':' ∈ A) (hcB : chr ':' ∉ B) :
    fixIPv6URL (A ++ chr ':' :: B) = str "[" ++ A ++ str "]:" ++ B := by
  have hno : strings.Contains (A ++ chr ':' :: B) (chr '[') = false := by
    rw [strings.Contains_eq_false_iff]
    simp [hA, hB, lbracket_ne_colon]
  unfold fixIPv6URL
  rw [hno]
  simp only [Bool.false_eq_true, if_false]
  have hparts : strings.Split (A ++ chr ':' :: B) (chr ':') = strings.Split A (chr ':') ++ [B] := by
    rw [strings.Split_append_cons, strings.Split_of_not_mem B _ hcB]
  have hpos : 0 < A.count (chr ':') := List.count_pos_iff.2 hcA
  split
  · rename_i hle
    rw [hparts, List.length_append, strings.length_Split] at hle
    simp at hle
    omega
  · simp [List.get_eq_getElem, hparts, str_colon, strings.Join_Split]

theorem mem_of_two_le_count (A B : GoString) (b : UInt8) (hB : b ∉ B)
    (h : 2 ≤ (A ++ b :: B).count b) : b ∈ A := by
  rw [List.count_append, List.count_cons_self, List.count_eq_zero_of_not_mem hB] at h
  exact List.count_pos_iff.1 (by omega)

theorem fixIPv6URL_eq_or_head (s : GoString) :
    fixIPv6URL s = s ∨ ∃ t : GoString, fixIPv6URL s = chr '[' :: t := by
  by_cases hb : chr '[' ∈ s
  · exact Or.inl (fixIPv6URL_of_mem s hb)
  · by_cases hc : s.count (chr ':') ≤ 1
    · exact Or.inl (fixIPv6URL_of_count_le s hc)
    · right
      have hmem : chr ':' ∈ s := List.count_pos_iff.1 (by omega)
      obtain ⟨A, B, hs, hB⟩ := exists_last_sep s (chr ':') hmem
      subst hs
      have hA : chr ':' ∈ A := mem_of_two_le_count A B _ hB (by omega)
      have h1 : chr '[' ∉ A := fun h => hb (List.mem_append_left _ h)
      have h2 : chr '[' ∉ B := fun h =>
        hb (List.mem_append_right _ (List.mem_cons_of_mem _ h))
      refine ⟨A ++ str "]:" ++ B, ?_⟩
      rw [fixIPv6URL_append A B h1 h2 hA hB, str_lbracket]
      simp

/-! ## The address normaliser: what the specification says of it -/

/-- C1: a string without `[` and with at least two `:` is rewritten to
`"[" + A + "]:" + B`, where `A` is what stands before its last `:` and `B` what
stands after it. -/
theorem fixIPv6URL_wraps_host (s A B : GoString) (hb : chr '[' ∉ s)
    (hc : 2 ≤ s.count (chr ':')) (hs : s = A ++ str ":" ++ B) (hB : chr ':' ∉ B) :
    fixIPv6URL s = str "[" ++ A ++ str "]:" ++ B := by
  rw [str_colon] at hs
  have hs2 : s = A ++ chr ':' :: B := by rw [hs]; simp
  subst hs2
  have hA : chr ':' ∈ A := mem_of_two_le_count A B _ hB hc
  have h1 : chr '[' ∉ A := fun h => hb (List.mem_append_left _ h)
  have h2 : chr '[' ∉ B := fun h => hb (List.mem_append_right _ (List.mem_cons_of_mem _ h))
  exact fixIPv6URL_append A B h1 h2 hA hB

/-- C1, scenario S2: `22da:d3:0:2f3a::2000:10911` becomes
`[22da:d3:0:2f3a::2000]:10911`. -/
theorem fixIPv6URL_wraps_host_witness :
    fixIPv6URL (str "22da:d3:0:2f3a::2000:10911") = str "[22da:d3:0:2f3a::2000]:10911" :=
  (fixIPv6URL_wraps_host (str "22da:d3:0:2f3a::2000:10911") (str "22da:d3:0:2f3a::2000")
    (str "10911") (by decide) (by decide) (by decide) (by decide)).trans (by decide)

/-- C2: a string that contains `[` anywhere is returned unchanged. -/
theorem fixIPv6URL_bracket_unchanged (s : GoString) (h : chr '[' ∈ s) : fixIPv6URL s = s :=
  fixIPv6URL_of_mem s h

/-- C2, scenario S3: `[::1]:10911` is returned unchanged. -/
theorem fixIPv6URL_bracket_unchanged_witness :
    chr '[' ∈ str "[::1]:10911" ∧ fixIPv6URL (str "[::1]:10911") = str "[::1]:10911" :=
  ⟨by decide, fixIPv6URL_bracket_unchanged (str "[::1]:10911") (by decide)⟩

/-- C3: a string with at most one `:` (the empty string and strings without
`:` included) is returned unchanged. -/
theorem fixIPv6URL_one_colon_unchanged (s : GoString) (h : s.count (chr ':') ≤ 1) :
    fixIPv6URL s = s :=
  fixIPv6URL_of_count_le s h

/-- C3: `1.1.1.1:10911`, `localhost:8080` and the empty string are returned
unchanged. -/
theorem fixIPv6URL_one_colon_unchanged_witness :
    fixIPv6URL (str "1.1.1.1:10911") = str "1.1.1.1:10911" ∧
    fixIPv6URL (str "localhost:8080") = str "localhost:8080" ∧
    fixIPv6URL (str "") = str "" :=
  ⟨fixIPv6URL_one_colon_unchanged (str "1.1.1.1:10911") (by decide),
   fixIPv6URL_one_colon_unchanged (str "localhost:8080") (by decide),
   fixIPv6URL_one_colon_unchanged (str "") (by decide)⟩

/-- C4: `fixIPv6URL` is idempotent. -/
theorem fixIPv6URL_idempotent (s : GoString) :
    fixIPv6URL (fixIPv6URL s) = fixIPv6URL s := by
  rcases fixIPv6URL_eq_or_head s with h | ⟨t, h⟩
  · rw [h, h]
  · rw [h]
    exact fixIPv6URL_of_mem _ (List.mem_cons_self _ _)

/-- C5 as stated fails: with a host `a::b` (two `:`, no `[`), the port text
`1:2` moves the brackets to the last `:` of the whole string, and the port
text `80[` leaves the string unchanged. -/
theorem fixIPv6URL_host_port_any_port_fails :
    (2 ≤ (str "a::b").count (chr ':') ∧ chr '[' ∉ str "a::b" ∧
      fixIPv6URL (str "a::b" ++ str ":" ++ str "1:2") = str "[a::b:1]:2" ∧
      fixIPv6URL (str "a::b" ++ str ":" ++ str "1:2")
        ≠ str "[" ++ str "a::b" ++ str "]:" ++ str "1:2") ∧
    (fixIPv6URL (str "a::b" ++ str ":" ++ str "80[") = str "a::b:80[" ∧
      fixIPv6URL (str "a::b" ++ str ":" ++ str "80[")
        ≠ str "[" ++ str "a::b" ++ str "]:" ++ str "80[") := by
  decide

/-- C5, amended: when `H` has at least two `:` and no `[`, and `P` has neither
`:` nor `[`, `fixIPv6URL (H + ":" + P)` is `"[" + H + "]:" + P`. -/
theorem fixIPv6URL_host_port (H P : GoString) (hc : 2 ≤ H.count (chr ':'))
    (hb : chr '[' ∉ H) (hPc : chr ':' ∉ P) (hPb : chr '[' ∉ P) :
    fixIPv6URL (H ++ str ":" ++ P) = str "[" ++ H ++ str "]:" ++ P := by
  have hH : chr ':' ∈ H := List.count_pos_iff.1 (by omega)
  have hs : H ++ str ":" ++ P = H ++ chr ':' :: P := by rw [str_colon]; simp
  rw [hs]
  exact fixIPv6URL_append H P hb hPb hH hPc

/-- C5, amended, at host `22da:d3:0:2f3a::2000` and port `10911`. -/
theorem fixIPv6URL_host_port_witness :
    fixIPv6URL (str "22da:d3:0:2f3a::2000" ++ str ":" ++ str "10911")
      = str "[" ++ str "22da:d3:0:2f3a::2000" ++ str "]:" ++ str "10911" :=
  fixIPv6URL_host_port (str "22da:d3:0:2f3a::2000") (str "10911")
    (by decide) (by decide) (by decide) (by decide)

/-- C10 as stated fails: `1:2:3[` contains `[`, so it is returned unchanged;
it has two `:` and is not of the form `"[" + H + "]:" + P`. -/
theorem fixIPv6URL_invariant_fails :
    ¬ ((fixIPv6URL (str "1:2:3[")).count (chr ':') ≤ 1 ∨
        IsBracketed (fixIPv6URL (str "1:2:3["))) := by
  have hfix : fixIPv6URL (str "1:2:3[") = str "1:2:3[" := by decide
  rw [hfix]
  rintro (h | ⟨H, P, h⟩)
  · revert h; decide
  · rw [str_lbracket] at h
    have hhead : (str "1:2:3[").head? = some (chr '[') := by rw [h]; rfl
    revert hhead; decide

/-- C10, amended: for every input that has no `[`, or that itself already has
at most one `:` or the form `"[" + H + "]:" + P`, the result has at most one `:`
or has the form `"[" + H + "]:" + P`. -/
theorem fixIPv6URL_invariant (s : GoString)
    (h : chr '[' ∉ s ∨ s.count (chr ':') ≤ 1 ∨ IsBracketed s) :
    (fixIPv6URL s).count (chr ':') ≤ 1 ∨ IsBracketed (fixIPv6URL s) := by
  by_cases hc : s.count (chr ':') ≤ 1
  · left
    rw [fixIPv6URL_of_count_le s hc]
    exact hc
  · right
    rcases h with hb | hle | hbr
    · have hmem : chr ':' ∈ s := List.count_pos_iff.1 (by omega)
      obtain ⟨A, B, hs, hB⟩ := exists_last_sep s (chr ':') hmem
      subst hs
      have hA : chr ':' ∈ A := mem_of_two_le_count A B _ hB (by omega)
      have h1 : chr '[' ∉ A := fun h => hb (List.mem_append_left _ h)
      have h2 : chr '[' ∉ B := fun h =>
        hb (List.mem_append_right _ (List.mem_cons_of_mem _ h))
      exact ⟨A, B, fixIPv6URL_append A B h1 h2 hA hB⟩
    · exact absurd hle hc
    · have hmem : chr '[' ∈ s := by
        obtain ⟨H, P, hs⟩ := hbr
        rw [hs, str_lbracket]
        simp
      rw [fixIPv6URL_of_mem s hmem]
      exact hbr

/-- C10, amended, at `22da:d3:0:2f3a::2000:10911` (no `[`, bracketed result),
at `1.1.1.1:10911` (one `:`) and at the already bracketed `[::1]:10911` of
scenario S3. -/
theorem fixIPv6URL_invariant_witness :
    ((fixIPv6URL (str "22da:d3:0:2f3a::2000:10911")).count (chr ':') ≤ 1 ∨
      IsBracketed (fixIPv6URL (str "22da:d3:0:2f3a::2000:10911"))) ∧
    ((fixIPv6URL (str "1.1.1.1:10911")).count (chr ':') ≤ 1 ∨
      IsBracketed (fixIPv6URL (str "1.1.1.1:10911"))) ∧
    ((fixIPv6URL (str "[::1]:10911")).count (chr ':') ≤ 1 ∨
      IsBracketed (fixIPv6URL (str "[::1]:10911"))) :=
  ⟨fixIPv6URL_invariant (str "22da:d3:0:2f3a::2000:10911") (Or.inl (by decide)),
   fixIPv6URL_invariant (str "1.1.1.1:10911") (Or.inl (by decide)),
   fixIPv6URL_invariant (str "[::1]:10911")
     (Or.inr (Or.inr ⟨str "::1", str "10911", by decide⟩))⟩

/-! ## The closure tracker: what the specification says of it -/

theorem not_isClosedConnError_hollow :
    ¬ IsClosedConnError (GoError.opError (some { Err := none })) := by
  rintro ⟨opErr, h1, h2⟩
  cases h1
  cases h2

theorem not_hollow_nil : ¬ IsHollowOpError GoError.nil := by
  rintro (e | e | ⟨p, e⟩) <;> cases e

theorem not_hollow_other (msg : GoString) : ¬ IsHollowOpError (GoError.other msg) := by
  rintro (e | e | ⟨p, e⟩) <;> cases e

theorem not_hollow_of_message (msg : GoString) :
    ¬ IsHollowOpError (GoError.opError (some { Err := some (Except.ok msg) })) := by
  rintro (e | e | ⟨p, e⟩) <;> cases e

theorem isClosed_of_message {σ : Type} (wrapper : tcpConnWrapper σ) (msg : GoString)
    (h : wrapper.closed = true) :
    wrapper.isClosed (GoError.opError (some { Err := some (Except.ok msg) }))
      = Except.ok (decide (msg = str "use of closed network connection")) := by
  simp [tcpConnWrapper.isClosed, h]

theorem isClosed_of_panicking_cause {σ : Type} (wrapper : tcpConnWrapper σ) (p : Panic)
    (h : wrapper.closed = true) :
    wrapper.isClosed (GoError.opError (some { Err := some (Except.error p) }))
      = Except.error p := by
  simp [tcpConnWrapper.isClosed, h]

/-- C6 as stated fails: with the flag set and a `*net.OpError` whose inner `Err`
is nil, the two conditions do not both hold, yet `isClosed` does not return
false: the call `opErr.Err.Error()` panics. -/
theorem isClosed_not_false_on_nil_cause :
    ¬ ((⟨some 0, false, true⟩ : tcpConnWrapper Nat).closed = true ∧
        IsClosedConnError (GoError.opError (some { Err := none }))) ∧
    (⟨some 0, false, true⟩ : tcpConnWrapper Nat).isClosed
        (GoError.opError (some { Err := none })) = Except.error Panic.nilDereference ∧
    (⟨some 0, false, true⟩ : tcpConnWrapper Nat).isClosed
        (GoError.opError (some { Err := none })) ≠ Except.ok false :=
  ⟨fun h => not_isClosedConnError_hollow h.2, by decide, by decide⟩

/-- C6, amended: except when the flag is set and `err` is a `*net.OpError` that
is a nil pointer, has a nil inner `Err`, or has an inner `Err` whose `Error()`
panics, `isClosed(err)` returns true exactly when the flag is set and `err` is
a `*net.OpError` whose inner `Err` has the message
`use of closed network connection`, and returns false in every other
combination. -/
theorem isClosed_true_iff {σ : Type} (wrapper : tcpConnWrapper σ) (err : GoError)
    (h : ¬ (wrapper.closed = true ∧ IsHollowOpError err)) :
    (wrapper.isClosed err = Except.ok true ↔
      wrapper.closed = true ∧ IsClosedConnError err) ∧
    (wrapper.isClosed err = Except.ok false ↔
      ¬ (wrapper.closed = true ∧ IsClosedConnError err)) := by
  obtain ⟨conn, mutex, closed⟩ := wrapper
  cases closed with
  | false => simp [tcpConnWrapper.isClosed]
  | true =>
    cases err with
    | nil => simp [tcpConnWrapper.isClosed, IsClosedConnError]
    | other msg => simp [tcpConnWrapper.isClosed, IsClosedConnError]
    | opError ptr =>
      cases ptr with
      | none => exact absurd ⟨rfl, Or.inl rfl⟩ h
      | some opErr =>
        obtain ⟨cause⟩ := opErr
        cases cause with
        | none => exact absurd ⟨rfl, Or.inr (Or.inl rfl)⟩ h
        | some outcome =>
          cases outcome with
          | error p => exact absurd ⟨rfl, Or.inr (Or.inr ⟨p, rfl⟩)⟩ h
          | ok msg =>
            rw [isClosed_of_message _ msg rfl]
            simp [IsClosedConnError]

/-- C6, amended, scenario S4: after our own close, the synthesized
`use of closed network connection` error is classified as ours, and an error
with another cause is not. -/
theorem isClosed_true_iff_witness :
    (⟨some 1, false, true⟩ : tcpConnWrapper Nat).isClosed errClosedConn = Except.ok true ∧
    (⟨some 1, false, true⟩ : tcpConnWrapper Nat).isClosed
      (GoError.opError (some { Err := some (Except.ok (str "connection reset by peer")) }))
        = Except.ok false :=
  ⟨((isClosed_true_iff (⟨some 1, false, true⟩ : tcpConnWrapper Nat) errClosedConn
      (fun h => not_hollow_of_message _ h.2)).1).2 ⟨rfl, ⟨_, rfl, rfl⟩⟩,
   ((isClosed_true_iff (⟨some 1, false, true⟩ : tcpConnWrapper Nat)
      (GoError.opError (some { Err := some (Except.ok (str "connection reset by peer")) }))
      (fun h => not_hollow_of_message _ h.2)).2).2 (fun h => by
        obtain ⟨opErr, h1, h2⟩ := h.2
        cases h1
        revert h2
        decide)⟩

/-- C7: while the flag is false, `isClosed(err)` returns false for every error,
the `use of closed network connection` error of a peer's close included. -/
theorem isClosed_false_of_not_closed {σ : Type} (wrapper : tcpConnWrapper σ) (err : GoError)
    (h : wrapper.closed = false) : wrapper.isClosed err = Except.ok false := by
  simp [tcpConnWrapper.isClosed, h]

/-- C7, scenario S4: before `destroy`, the `use of closed network connection`
error is not classified as ours. -/
theorem isClosed_false_of_not_closed_witness :
    (⟨some 0, false, false⟩ : tcpConnWrapper Nat).closed = false ∧
    (⟨some 0, false, false⟩ : tcpConnWrapper Nat).isClosed errClosedConn = Except.ok false :=
  ⟨rfl, isClosed_false_of_not_closed _ errClosedConn rfl⟩

/-- C8: `isClosed(nil)` returns false, whether the flag is false or true. -/
theorem isClosed_nil {σ : Type} (wrapper : tcpConnWrapper σ) :
    wrapper.isClosed GoError.nil = Except.ok false := by
  cases hc : wrapper.closed <;> simp [tcpConnWrapper.isClosed, hc]

/-! ## The closed flag over sequences of calls -/

theorem initConn_closed {σ Ctx Time : Type} (net : Net σ Ctx Time) (ctx : Ctx)
    (addr : GoString) (config : RemotingClientConfig) (wrapper : tcpConnWrapper σ)
    (err : GoError) (h : initConn net ctx addr config = (some wrapper, err)) :
    wrapper.closed = false ∧ wrapper.Mutex = false ∧ err = GoError.nil := by
  have key : ∀ r : Option σ × GoError,
      (if r.2 ≠ GoError.nil then ((none : Option (tcpConnWrapper σ)), r.2)
        else (some { Conn := r.1, Mutex := false, closed := false }, GoError.nil))
        = (some wrapper, err) →
      wrapper.closed = false ∧ wrapper.Mutex = false ∧ err = GoError.nil := by
    intro r hr
    split at hr
    · simp at hr
    · simp only [Prod.mk.injEq, Option.some.injEq] at hr
      obtain ⟨hw, he⟩ := hr
      subst hw
      exact ⟨rfl, rfl, he.symm⟩
  exact key _ h

theorem destroy_closed {σ : Type} (Close : σ → σ × GoError) (wrapper : tcpConnWrapper σ) :
    (wrapper.destroy Close).1.closed = true := by
  unfold tcpConnWrapper.destroy
  cases wrapper.Conn <;> rfl

theorem step_closed {σ : Type} (Close : σ → σ × GoError) (wrapper : tcpConnWrapper σ)
    (c : Call) (h : wrapper.closed = true) : (step Close wrapper c).closed = true := by
  cases c with
  | destroy => exact destroy_closed Close wrapper
  | isClosed err => exact h

theorem run_closed {σ : Type} (Close : σ → σ × GoError) (calls : List Call)
    (wrapper : tcpConnWrapper σ) (h : wrapper.closed = true) :
    (run Close wrapper calls).closed = true := by
  induction calls generalizing wrapper with
  | nil => exact h
  | cons c cs ih => exact ih (step Close wrapper c) (step_closed Close wrapper c h)

theorem run_append {σ : Type} (Close : σ → σ × GoError) (xs ys : List Call)
    (wrapper : tcpConnWrapper σ) :
    run Close wrapper (xs ++ ys) = run Close (run Close wrapper xs) ys := by
  simp [run, List.foldl_append]

theorem run_no_destroy {σ : Type} (Close : σ → σ × GoError) (calls : List Call)
    (wrapper : tcpConnWrapper σ) (h : Call.destroy ∉ calls) :
    run Close wrapper calls = wrapper := by
  induction calls generalizing wrapper with
  | nil => rfl
  | cons c cs ih =>
    have hc : c ≠ Call.destroy := fun e => h (by simp [e])
    have hcs : Call.destroy ∉ cs := fun e => h (List.mem_cons_of_mem _ e)
    cases c with
    | destroy => exact absurd rfl hc
    | isClosed err => exact ih wrapper hcs

/-- C9: the closed flag is one-way.  A wrapper a successful `initConn` returns
has `closed == false`; over any finite sequence of `destroy` and `isClosed`
calls on it the flag is false as long as no `destroy` was called, true right
after the first `destroy` and after every later call, whatever `Close` returns;
and no call on any wrapper takes the flag from true to false. -/
theorem closed_flag_one_way {σ Ctx Time : Type} (net : Net σ Ctx Time)
    (Close : σ → σ × GoError) (ctx : Ctx) (addr : GoString) (config : RemotingClientConfig)
    (wrapper : tcpConnWrapper σ)
    (h : initConn net ctx addr config = (some wrapper, GoError.nil)) :
    wrapper.closed = false ∧
    (∀ before : List Call, Call.destroy ∉ before →
      (run Close wrapper before).closed = false ∧
      (run Close wrapper (before ++ [Call.destroy])).closed = true ∧
      ∀ later : List Call,
        (run Close wrapper (before ++ Call.destroy :: later)).closed = true) ∧
    (∀ (w : tcpConnWrapper σ) (c : Call), w.closed = true →
      (step Close w c).closed = true) := by
  have h0 : wrapper.closed = false := (initConn_closed net ctx addr config wrapper _ h).1
  refine ⟨h0, ?_, fun w c hw => step_closed Close w c hw⟩
  intro before hb
  have hafter : ∀ later : List Call,
      (run Close wrapper (before ++ Call.destroy :: later)).closed = true := by
    intro later
    rw [run_append]
    exact run_closed Close later _ (destroy_closed Close _)
  refine ⟨?_, hafter [], hafter⟩
  rw [run_no_destroy Close before wrapper hb]
  exact h0

/-- C9 on the loopback platform, over the calls `isClosed`, `destroy`,
`isClosed`, `destroy`: the flag is false after the first call and true after
the second, the third and the fourth, although the second `Close` fails. -/
theorem closed_flag_one_way_witness :
    initConn loopback () (str "[::1]:10911") ⟨0, 3000000000, false⟩
      = (some ⟨some 0, false, false⟩, GoError.nil) ∧
    (run loopback.Close ⟨some 0, false, false⟩ [Call.isClosed errClosedConn]).closed = false ∧
    (run loopback.Close ⟨some 0, false, false⟩
      [Call.isClosed errClosedConn, Call.destroy]).closed = true ∧
    (run loopback.Close ⟨some 0, false, false⟩
      [Call.isClosed errClosedConn, Call.destroy, Call.isClosed errClosedConn]).closed
        = true ∧
    (run loopback.Close ⟨some 0, false, false⟩
      [Call.isClosed errClosedConn, Call.destroy, Call.isClosed errClosedConn,
        Call.destroy]).closed = true :=
  have h : initConn loopback () (str "[::1]:10911") ⟨0, 3000000000, false⟩
      = (some ⟨some 0, false, false⟩, GoError.nil) := by decide
  have t := (closed_flag_one_way loopback loopback.Close () (str "[::1]:10911")
    ⟨0, 3000000000, false⟩ ⟨some 0, false, false⟩ h).2.1
      [Call.isClosed errClosedConn] (by decide)
  ⟨h, t.1, t.2.1, t.2.2 [Call.isClosed errClosedConn],
    t.2.2 [Call.isClosed errClosedConn, Call.destroy]⟩

/-! ## `destroy` -/

/-- C11: `destroy` sets the closed flag before it calls `Close`, so the flag is
true afterwards even when that call cannot be made; on every wrapper that has
a connection, whatever the flag was, it calls `Close` on that connection and
returns exactly what `Close` returned. -/
theorem destroy_returns_close {σ : Type} (Close : σ → σ × GoError)
    (wrapper : tcpConnWrapper σ) :
    (wrapper.destroy Close).1.closed = true ∧
    ∀ c : σ, wrapper.Conn = some c →
      (wrapper.destroy Close).1.Conn = some (Close c).1 ∧
      (wrapper.destroy Close).2 = Except.ok (Close c).2 := by
  refine ⟨destroy_closed Close wrapper, ?_⟩
  intro c hc
  obtain ⟨conn, mutex, closed⟩ := wrapper
  simp only at hc
  subst hc
  exact ⟨rfl, rfl⟩

/-- C11 on the loopback platform: the first `destroy` returns the nil of
`Close`, the second one, with the flag already true, calls `Close` again and
returns its `use of closed network connection` error as it is. -/
theorem destroy_returns_close_witness :
    (⟨some 0, false, false⟩ : tcpConnWrapper Nat).destroy loopback.Close
      = (⟨some 1, false, true⟩, Except.ok GoError.nil) ∧
    (⟨some 1, false, true⟩ : tcpConnWrapper Nat).destroy loopback.Close
      = (⟨some 1, false, true⟩, Except.ok errClosedConn) ∧
    ((⟨some 1, false, true⟩ : tcpConnWrapper Nat).destroy loopback.Close).2
      = Except.ok (loopback.Close 1).2 :=
  ⟨by decide, by decide,
    ((destroy_returns_close loopback.Close (⟨some 1, false, true⟩ : tcpConnWrapper Nat)).2
      1 rfl).2⟩

/-! ## `initConn` -/

theorem initConn_eq_dialed {σ Ctx Time : Type} (net : Net σ Ctx Time) (ctx : Ctx)
    (addr : GoString) (config : RemotingClientConfig) :
    initConn net ctx addr config =
      if (dialed net ctx addr config).2 ≠ GoError.nil then (none, (dialed net ctx addr config).2)
      else (some { Conn := (dialed net ctx addr config).1, Mutex := false, closed := false },
        GoError.nil) :=
  rfl

theorem initConn_congr_platform {σ Ctx Time : Type} (net1 net2 : Net σ Ctx Time)
    (ctx : Ctx) (addr : GoString) (config : RemotingClientConfig)
    (hnow : net1.Now = net2.Now) (hadd : net1.Add = net2.Add)
    (htls : config.UseTls = true → ∀ (d : Dialer Time) (c : TlsConfig),
      net1.TlsDialWithDialer d (str "tcp") (fixIPv6URL addr) c
        = net2.TlsDialWithDialer d (str "tcp") (fixIPv6URL addr) c)
    (htcp : config.UseTls = false → ∀ d : Dialer Time,
      net1.DialContext d ctx (str "tcp") (fixIPv6URL addr)
        = net2.DialContext d ctx (str "tcp") (fixIPv6URL addr)) :
    initConn net1 ctx addr config = initConn net2 ctx addr config := by
  have hd : dialed net1 ctx addr config = dialed net2 ctx addr config := by
    unfold dialed
    cases hT : config.UseTls with
    | true =>
      simp only [if_true]
      rw [hnow, hadd]
      exact htls hT _ _
    | false =>
      simp only [Bool.false_eq_true, if_false]
      rw [hnow, hadd]
      exact htcp hT _
  rw [initConn_eq_dialed, initConn_eq_dialed, hd]

/-- C12: on every platform the result of `initConn` is made from what the dial
returns at network `tcp` and address `fixIPv6URL addr`: from
`tls.DialWithDialer` there when `UseTls` is true, from `DialContext` there, with
the caller's context, when it is false.  On the recording platform the
connection in the wrapper shows the call: the path `UseTls` selects, network
`tcp`, address `fixIPv6URL addr`. -/
theorem initConn_dials_fixed_address {σ Ctx Time : Type} (net : Net σ Ctx Time)
    (ctx : Ctx) (addr : GoString) (config : RemotingClientConfig) :
    (config.UseTls = true → ∀ r : Option σ × GoError,
      r = net.TlsDialWithDialer
          { KeepAlive := config.KeepAliveDuration
            Deadline := net.Add net.Now config.ConnectionTimeout }
          (str "tcp") (fixIPv6URL addr) { InsecureSkipVerify := true } →
      initConn net ctx addr config =
        if r.2 ≠ GoError.nil then (none, r.2)
        else (some { Conn := r.1, Mutex := false, closed := false }, GoError.nil)) ∧
    (config.UseTls = false → ∀ r : Option σ × GoError,
      r = net.DialContext
          { KeepAlive := config.KeepAliveDuration
            Deadline := net.Add net.Now config.ConnectionTimeout }
          ctx (str "tcp") (fixIPv6URL addr) →
      initConn net ctx addr config =
        if r.2 ≠ GoError.nil then (none, r.2)
        else (some { Conn := r.1, Mutex := false, closed := false }, GoError.nil)) ∧
    initConn recorder () addr config =
      (some { Conn := some { viaTls := config.UseTls, network := str "tcp",
                             address := fixIPv6URL addr },
              Mutex := false, closed := false }, GoError.nil) := by
  refine ⟨?_, ?_, ?_⟩
  · intro hT r hr
    have hd : dialed net ctx addr config = r := by
      unfold dialed
      rw [hr]
      simp only [hT, if_true]
    rw [initConn_eq_dialed, hd]
  · intro hT r hr
    have hd : dialed net ctx addr config = r := by
      unfold dialed
      rw [hr]
      simp only [hT, Bool.false_eq_true, if_false]
    rw [initConn_eq_dialed, hd]
  · obtain ⟨ka, timeout, tls⟩ := config
    cases tls <;> rfl

/-- C12 at `22da:d3:0:2f3a::2000:10911`.  On the recording platform the dial of
either path is called with `tcp` and `[22da:d3:0:2f3a::2000]:10911`.  On a
platform that resolves only that bracketed address both paths connect, and on
one that resolves only the raw address both fail with `no such host`. -/
theorem initConn_dials_fixed_address_witness :
    initConn recorder () (str "22da:d3:0:2f3a::2000:10911") ⟨0, 3000000000, true⟩
      = (some ⟨some ⟨true, str "tcp", str "[22da:d3:0:2f3a::2000]:10911"⟩, false, false⟩,
          GoError.nil) ∧
    initConn recorder () (str "22da:d3:0:2f3a::2000:10911") ⟨0, 3000000000, false⟩
      = (some ⟨some ⟨false, str "tcp", str "[22da:d3:0:2f3a::2000]:10911"⟩, false, false⟩,
          GoError.nil) ∧
    initConn (picky (fun a => decide (a = str "[22da:d3:0:2f3a::2000]:10911"))) false
        (str "22da:d3:0:2f3a::2000:10911") ⟨0, 3000000000, true⟩
      = (some ⟨some 0, false, false⟩, GoError.nil) ∧
    initConn (picky (fun a => decide (a = str "[22da:d3:0:2f3a::2000]:10911"))) false
        (str "22da:d3:0:2f3a::2000:10911") ⟨0, 3000000000, false⟩
      = (some ⟨some 0, false, false⟩, GoError.nil) ∧
    initConn (picky (fun a => decide (a = str "22da:d3:0:2f3a::2000:10911"))) false
        (str "22da:d3:0:2f3a::2000:10911") ⟨0, 3000000000, true⟩
      = (none, GoError.other (str "no such host")) ∧
    initConn (picky (fun a => decide (a = str "22da:d3:0:2f3a::2000:10911"))) false
        (str "22da:d3:0:2f3a::2000:10911") ⟨0, 3000000000, false⟩
      = (none, GoError.other (str "no such host")) :=
  ⟨(initConn_dials_fixed_address recorder () (str "22da:d3:0:2f3a::2000:10911")
      ⟨0, 3000000000, true⟩).2.2.trans (by decide),
   (initConn_dials_fixed_address recorder () (str "22da:d3:0:2f3a::2000:10911")
      ⟨0, 3000000000, false⟩).2.2.trans (by decide),
   ((initConn_dials_fixed_address
      (picky (fun a => decide (a = str "[22da:d3:0:2f3a::2000]:10911"))) false
      (str "22da:d3:0:2f3a::2000:10911") ⟨0, 3000000000, true⟩).1 rfl _ rfl).trans
      (by decide),
   ((initConn_dials_fixed_address
      (picky (fun a => decide (a = str "[22da:d3:0:2f3a::2000]:10911"))) false
      (str "22da:d3:0:2f3a::2000:10911") ⟨0, 3000000000, false⟩).2.1 rfl _ rfl).trans
      (by decide),
   ((initConn_dials_fixed_address
      (picky (fun a => decide (a = str "22da:d3:0:2f3a::2000:10911"))) false
      (str "22da:d3:0:2f3a::2000:10911") ⟨0, 3000000000, true⟩).1 rfl _ rfl).trans
      (by decide),
   ((initConn_dials_fixed_address
      (picky (fun a => decide (a = str "22da:d3:0:2f3a::2000:10911"))) false
      (str "22da:d3:0:2f3a::2000:10911") ⟨0, 3000000000, false⟩).2.1 rfl _ rfl).trans
      (by decide)⟩

/-- C13: `initConn` returns an error exactly when the underlying dial did; then
it returns that very error and a nil wrapper, and otherwise a nil error and a
wrapper that holds the connection the dial returned. -/
theorem initConn_error_iff {σ Ctx Time : Type} (net : Net σ Ctx Time) (ctx : Ctx)
    (addr : GoString) (config : RemotingClientConfig) :
    ((initConn net ctx addr config).2 ≠ GoError.nil ↔
      (dialed net ctx addr config).2 ≠ GoError.nil) ∧
    ((dialed net ctx addr config).2 ≠ GoError.nil →
      initConn net ctx addr config = (none, (dialed net ctx addr config).2)) ∧
    ((dialed net ctx addr config).2 = GoError.nil →
      initConn net ctx addr config
        = (some { Conn := (dialed net ctx addr config).1, Mutex := false, closed := false },
          GoError.nil)) := by
  rw [initConn_eq_dialed]
  by_cases h : (dialed net ctx addr config).2 = GoError.nil
  · simp [h]
  · simp [h]

/-- C13 on a platform that resolves nothing and on one that resolves
everything, on both paths: the `no such host` of the dial comes back unchanged
with a nil wrapper, and a successful dial gives a nil error and the wrapper of
the dialled connection. -/
theorem initConn_error_iff_witness :
    initConn (picky (fun _ => false)) false (str "1.1.1.1:10911") ⟨0, 3000000000, true⟩
      = (none, GoError.other (str "no such host")) ∧
    initConn (picky (fun _ => false)) false (str "1.1.1.1:10911") ⟨0, 3000000000, false⟩
      = (none, GoError.other (str "no such host")) ∧
    initConn (picky (fun _ => true)) false (str "1.1.1.1:10911") ⟨0, 3000000000, true⟩
      = (some ⟨some 0, false, false⟩, GoError.nil) ∧
    initConn (picky (fun _ => true)) false (str "1.1.1.1:10911") ⟨0, 3000000000, false⟩
      = (some ⟨some 0, false, false⟩, GoError.nil) :=
  ⟨(initConn_error_iff (picky (fun _ => false)) false (str "1.1.1.1:10911")
      ⟨0, 3000000000, true⟩).2.1 (by decide),
   (initConn_error_iff (picky (fun _ => false)) false (str "1.1.1.1:10911")
      ⟨0, 3000000000, false⟩).2.1 (by decide),
   (initConn_error_iff (picky (fun _ => true)) false (str "1.1.1.1:10911")
      ⟨0, 3000000000, true⟩).2.2 (by decide),
   (initConn_error_iff (picky (fun _ => true)) false (str "1.1.1.1:10911")
      ⟨0, 3000000000, false⟩).2.2 (by decide)⟩

/-- C14: with `UseTls` true the result of `initConn` is the same under any two
contexts, on the same platform, address and configuration. -/
theorem initConn_tls_ignores_ctx {σ Ctx Time : Type} (net : Net σ Ctx Time)
    (ctx1 ctx2 : Ctx) (addr : GoString) (config : RemotingClientConfig)
    (h : config.UseTls = true) :
    initConn net ctx1 addr config = initConn net ctx2 addr config := by
  have hd : dialed net ctx1 addr config = dialed net ctx2 addr config := by
    unfold dialed
    simp only [h, if_true]
  rw [initConn_eq_dialed, initConn_eq_dialed, hd]

/-- C14, scenario S6: on the TLS path a cancelled context and a live one give
the same connection; on the plain path the cancelled one aborts the dial. -/
theorem initConn_tls_ignores_ctx_witness :
    initConn (picky (fun _ => true)) true (str "1.1.1.1:10911") ⟨0, 3000000000, true⟩
      = initConn (picky (fun _ => true)) false (str "1.1.1.1:10911") ⟨0, 3000000000, true⟩ ∧
    initConn (picky (fun _ => true)) true (str "1.1.1.1:10911") ⟨0, 3000000000, true⟩
      = (some ⟨some 0, false, false⟩, GoError.nil) ∧
    initConn (picky (fun _ => true)) true (str "1.1.1.1:10911") ⟨0, 3000000000, false⟩
      = (none, GoError.other (str "operation was canceled")) ∧
    initConn (picky (fun _ => true)) false (str "1.1.1.1:10911") ⟨0, 3000000000, false⟩
      = (some ⟨some 0, false, false⟩, GoError.nil) :=
  ⟨initConn_tls_ignores_ctx (picky (fun _ => true)) true false (str "1.1.1.1:10911")
      ⟨0, 3000000000, true⟩ rfl,
   by decide, by decide, by decide⟩

/-! ## `isClosed` as a function of every error value -/

/-- C16 as stated fails: with the flag set, `isClosed` on a nil `*net.OpError`
pointer stored in a non-nil `error` passes the type assertion and then reads
`opErr.Err` through the nil pointer: it panics and returns no boolean. -/
theorem isClosed_panics_on_nil_pointer :
    (⟨some 0, false, true⟩ : tcpConnWrapper Nat).isClosed (GoError.opError none)
      = Except.error Panic.nilDereference ∧
    (⟨some 0, false, true⟩ : tcpConnWrapper Nat).isClosed (GoError.opError none)
      ≠ Except.ok true ∧
    (⟨some 0, false, true⟩ : tcpConnWrapper Nat).isClosed (GoError.opError none)
      ≠ Except.ok false := by
  decide

/-- C16, amended: `isClosed(err)` returns a boolean, without a panic, for every
error when the flag is false, and when the flag is true for every error that is
nil, not a `*net.OpError`, or a non-nil `*net.OpError` with a non-nil inner
`Err` whose `Error()` returns a message. -/
theorem isClosed_returns_bool {σ : Type} (wrapper : tcpConnWrapper σ) (err : GoError)
    (h : ¬ (wrapper.closed = true ∧ IsHollowOpError err)) :
    wrapper.isClosed err = Except.ok true ∨ wrapper.isClosed err = Except.ok false := by
  obtain ⟨conn, mutex, closed⟩ := wrapper
  cases closed with
  | false => exact Or.inr rfl
  | true =>
    cases err with
    | nil => exact Or.inr rfl
    | other msg => exact Or.inr rfl
    | opError ptr =>
      cases ptr with
      | none => exact absurd ⟨rfl, Or.inl rfl⟩ h
      | some opErr =>
        obtain ⟨cause⟩ := opErr
        cases cause with
        | none => exact absurd ⟨rfl, Or.inr (Or.inl rfl)⟩ h
        | some outcome =>
          cases outcome with
          | error p => exact absurd ⟨rfl, Or.inr (Or.inr ⟨p, rfl⟩)⟩ h
          | ok msg =>
            rw [isClosed_of_message _ msg rfl]
            by_cases hm : msg = str "use of closed network connection"
            · left
              simp [hm]
            · right
              simp [hm]

/-- C16, amended: with the flag false the nil `*net.OpError` pointer is
answered with a boolean; with the flag true so are an `io.EOF`-like error that
is no `*net.OpError` and a `*net.OpError` whose cause says
`connection reset by peer`. -/
theorem isClosed_returns_bool_witness :
    ((⟨some 0, false, false⟩ : tcpConnWrapper Nat).isClosed (GoError.opError none)
        = Except.ok true ∨
      (⟨some 0, false, false⟩ : tcpConnWrapper Nat).isClosed (GoError.opError none)
        = Except.ok false) ∧
    ((⟨some 1, false, true⟩ : tcpConnWrapper Nat).isClosed (GoError.other (str "EOF"))
        = Except.ok true ∨
      (⟨some 1, false, true⟩ : tcpConnWrapper Nat).isClosed (GoError.other (str "EOF"))
        = Except.ok false) ∧
    ((⟨some 1, false, true⟩ : tcpConnWrapper Nat).isClosed
        (GoError.opError (some { Err := some (Except.ok (str "connection reset by peer")) }))
        = Except.ok true ∨
      (⟨some 1, false, true⟩ : tcpConnWrapper Nat).isClosed
        (GoError.opError (some { Err := some (Except.ok (str "connection reset by peer")) }))
        = Except.ok false) :=
  ⟨isClosed_returns_bool _ _ (fun h => by cases h.1),
   isClosed_returns_bool _ _ (fun h => not_hollow_other _ h.2),
   isClosed_returns_bool _ _ (fun h => not_hollow_of_message _ h.2)⟩

/-! ## `fixIPv6URL` keeps every character -/

/-- C17: for an input `s` without `[`, the result either is `s` itself, with at
most one `:`, or begins with `[` and is `"[" + H + "]:" + P` with no `:` in `P`
and `H + ":" + P == s`: only the two brackets are inserted. -/
theorem fixIPv6URL_inserts_brackets_only (s : GoString) (hb : chr '[' ∉ s) :
    (fixIPv6URL s = s ∧ (fixIPv6URL s).count (chr ':') ≤ 1) ∨
    ((fixIPv6URL s).head? = some (chr '[') ∧
      ∃ H P : GoString, fixIPv6URL s = str "[" ++ H ++ str "]:" ++ P ∧
        chr ':' ∉ P ∧ H ++ str ":" ++ P = s) := by
  by_cases hc : s.count (chr ':') ≤ 1
  · left
    rw [fixIPv6URL_of_count_le s hc]
    exact ⟨rfl, hc⟩
  · right
    have hmem : chr ':' ∈ s := List.count_pos_iff.1 (by omega)
    obtain ⟨A, B, hs, hB⟩ := exists_last_sep s (chr ':') hmem
    subst hs
    have hA : chr ':' ∈ A := mem_of_two_le_count A B _ hB (by omega)
    have h1 : chr '[' ∉ A := fun h => hb (List.mem_append_left _ h)
    have h2 : chr '[' ∉ B := fun h =>
      hb (List.mem_append_right _ (List.mem_cons_of_mem _ h))
    have hfix := fixIPv6URL_append A B h1 h2 hA hB
    refine ⟨?_, A, B, hfix, hB, ?_⟩
    · rw [hfix, str_lbracket]
      rfl
    · rw [str_colon]
      simp

/-- C17 at `22da:d3:0:2f3a::2000:10911` and at `localhost:8080`. -/
theorem fixIPv6URL_inserts_brackets_only_witness :
    ((fixIPv6URL (str "22da:d3:0:2f3a::2000:10911") = str "22da:d3:0:2f3a::2000:10911" ∧
        (fixIPv6URL (str "22da:d3:0:2f3a::2000:10911")).count (chr ':') ≤ 1) ∨
      ((fixIPv6URL (str "22da:d3:0:2f3a::2000:10911")).head? = some (chr '[') ∧
        ∃ H P : GoString,
          fixIPv6URL (str "22da:d3:0:2f3a::2000:10911") = str "[" ++ H ++ str "]:" ++ P ∧
          chr ':' ∉ P ∧ H ++ str ":" ++ P = str "22da:d3:0:2f3a::2000:10911")) ∧
    ((fixIPv6URL (str "localhost:8080") = str "localhost:8080" ∧
        (fixIPv6URL (str "localhost:8080")).count (chr ':') ≤ 1) ∨
      ((fixIPv6URL (str "localhost:8080")).head? = some (chr '[') ∧
        ∃ H P : GoString,
          fixIPv6URL (str "localhost:8080") = str "[" ++ H ++ str "]:" ++ P ∧
          chr ':' ∉ P ∧ H ++ str ":" ++ P = str "localhost:8080")) :=
  ⟨fixIPv6URL_inserts_brackets_only (str "22da:d3:0:2f3a::2000:10911") (by decide),
   fixIPv6URL_inserts_brackets_only (str "localhost:8080") (by decide)⟩

end Remote
